import Mathlib

/-!
# Verification of the map navigation widget (`src/App.tsx`)

A shallow embedding of the single-file React application: the route
resolver (`getCoordinates`, `getRoute`, `updateRoute`), the input shell
(`handleSubmit`), and the directions-tab rendering.  Numbers are modelled
as rationals (the JS values the code manipulates after parsing), the
Leaflet map as an explicit list of layers, and every side effect
(network request, `setError`, `setDirections`, layer mutation) as data in
an explicit result record.  The Leaflet great-circle distance
(`map.distance`) is an external library call and is kept abstract as a
function parameter.
-/

namespace MapsApp

/-- `Coordinates` from the source: `{ lat: number; lng: number }`. -/
structure Coordinates where
  lat : ℚ
  lng : ℚ
deriving DecidableEq, Repr, Inhabited

/-- `RouteStep` from the source: `{ instruction: string; distance: number }`.
The distance is always produced by `Math.round`, hence an integer. -/
structure RouteStep where
  instruction : String
  distance : ℤ
deriving DecidableEq, Repr, Inhabited

/-- One entry of the Nominatim geocoding JSON array; the code reads
`data[0].lat` / `data[0].lon` (string fields) through `parseFloat`; we
carry the parsed numeric values. -/
structure GeocodeResult where
  lat : ℚ
  lon : ℚ
deriving DecidableEq, Repr, Inhabited

/-- A geocoding call outcome: a JSON array of results, or a transport
error (fetch/json rejection), which the `try`/`catch` also handles. -/
inductive GeocodeReply where
  | success (results : List GeocodeResult)
  | transportError
deriving DecidableEq, Repr

/-- `step.maneuver` of the OSRM payload; `instruction` may be missing
(JS `undefined`), hence `Option`. -/
structure Maneuver where
  instruction : Option String
deriving DecidableEq, Repr, Inhabited

/-- One OSRM step: `{maneuver, name, distance}`. -/
structure StepRaw where
  maneuver : Maneuver
  name : String
  distance : ℚ
deriving DecidableEq, Repr, Inhabited

/-- One OSRM leg: `{steps}`. -/
structure Leg where
  steps : List StepRaw
deriving DecidableEq, Repr, Inhabited

/-- One OSRM route: `{legs, geometry:{coordinates}}`; each geometry
coordinate is a `[lon, lat]` pair. -/
structure RouteEntry where
  legs : List Leg
  geometry : List (ℚ × ℚ)
deriving DecidableEq, Repr, Inhabited

/-- The OSRM payload `{code, routes}`. -/
structure RouteResponse where
  code : String
  routes : List RouteEntry
deriving DecidableEq, Repr, Inhabited

/-- A routing call outcome: payload, or a transport error. -/
inductive RouteReply where
  | success (payload : RouteResponse)
  | transportError
deriving DecidableEq, Repr

/-- The fixed message set by `getCoordinates` on failure (the spec's
`LookupError` kind). -/
def lookupErrorMsg : String := "Error finding location. Please try a different address."

/-- The fixed message set by `getRoute` on failure (the spec's
`RouteError` kind). -/
def routeErrorMsg : String := "Error finding route. Please try again."

/-- The fixed message set by `handleSubmit` on missing input (the spec's
`InputError` kind). -/
def inputErrorMsg : String := "Please enter both origin and destination"

/-- `getCoordinates` from the source minus the effects: takes the first
result's lat/lon when the array is non-empty (`data && data[0]`);
otherwise the thrown `Location not found` error (or a transport error)
is caught and `null` is returned. -/
def getCoordinates (reply : GeocodeReply) : Option Coordinates :=
  match reply with
  | .success (r :: _) => some ⟨r.lat, r.lon⟩
  | .success [] => none
  | .transportError => none

/-- The `setError` effect of one `getCoordinates` call: the fixed lookup
message exactly when the call fails. -/
def getCoordinatesErrors (reply : GeocodeReply) : List String :=
  match getCoordinates reply with
  | some _ => []
  | none => [lookupErrorMsg]

/-- JavaScript `a || b` on `undefined | string`: falls back when the
left side is `undefined` or the empty string (both falsy). -/
def jsOrString (a : Option String) (b : String) : String :=
  match a with
  | none => b
  | some s => if s = "" then b else s

/-- The step-to-`RouteStep` mapping of `getRoute`:
`{instruction: step.maneuver.instruction || step.name, distance: Math.round(step.distance)}`.
`Math.round` is `⌊x + 1/2⌋`, which is Mathlib's `round` on `ℚ`. -/
def parseStep (s : StepRaw) : RouteStep :=
  ⟨jsOrString s.maneuver.instruction s.name, round s.distance⟩

/-- `getRoute` from the source minus the effects: `null` on transport
error, on `code !== 'Ok'` (`Route not found` thrown and caught), or when
`routes[0]` / `legs[0]` is `undefined` (the resulting `TypeError` is
also caught); otherwise the parsed steps together with the geometry
coordinates, each `[lon, lat]` pair reordered to `[lat, lon]`. -/
def getRoute (reply : RouteReply) : Option (List RouteStep × List (ℚ × ℚ)) :=
  match reply with
  | .transportError => none
  | .success data =>
    if data.code ≠ "Ok" then none
    else
      match data.routes with
      | [] => none
      | r :: _ =>
        match r.legs with
        | [] => none
        | leg :: _ =>
          some (leg.steps.map parseStep, r.geometry.map (fun coord => (coord.2, coord.1)))

/-- The `setError` effect of one `getRoute` call: the fixed route
message exactly when the call fails. -/
def getRouteErrors (reply : RouteReply) : List String :=
  match getRoute reply with
  | some _ => []
  | none => [routeErrorMsg]

/-- The `setDirections` effect of one `getRoute` call: the parsed steps
exactly when the payload parses (the write happens just before the
coordinates are returned). -/
def getRouteDirections (reply : RouteReply) : List (List RouteStep) :=
  match getRoute reply with
  | some (steps, _) => [steps]
  | none => []

/-- A Leaflet map layer, as far as the code distinguishes them:
`L.Marker` (position and bound popup text), `L.Polyline` (coordinate
list), and the base tile layer (neither, so never removed). -/
inductive Layer where
  | marker (pos : ℚ × ℚ) (popup : String)
  | polyline (coords : List (ℚ × ℚ))
  | tile
deriving DecidableEq, Repr

/-- The `map.eachLayer` sweep of `updateRoute`: removes every layer that
is an `L.Marker` or `L.Polyline`, keeping the rest. -/
def clearRouteLayers (layers : List Layer) : List Layer :=
  layers.filter (fun l => match l with
    | .marker _ _ => false
    | .polyline _ => false
    | .tile => true)

/-- The hardcoded airport fixture of `updateRoute`. -/
def airports : List (String × (ℚ × ℚ)) :=
  [("DFW", (32.8998, -97.0403)), ("DAL", (32.8481, -96.8512))]

/-- The layers the airport `forEach` adds: one marker per fixture entry,
popup `<name> Airport`. -/
def airportLayers : List Layer :=
  airports.map (fun airport => Layer.marker airport.2 (airport.1 ++ " Airport"))

/-- JavaScript `Array.prototype.reduce` with an index-aware callback, as
used by the distance computation. -/
def jsReduceIdx {α β : Type} (f : β → α → ℕ → β) (init : β) (l : List α) : β :=
  (l.foldl (fun acc a => (f acc.1 a acc.2, acc.2 + 1)) (init, 0)).1

/-- The cumulative route distance of `updateRoute`, translated from
`routeCoordinates.reduce((total, coord, i) => i === 0 ? 0 : total + map.distance(routeCoordinates[i-1], coord), 0)`.
`dist` abstracts Leaflet's `map.distance` (great-circle distance). -/
def routeDistance (dist : (ℚ × ℚ) → (ℚ × ℚ) → ℚ) (coords : List (ℚ × ℚ)) : ℚ :=
  jsReduceIdx
    (fun total coord i => if i = 0 then 0 else total + dist (coords.getD (i - 1) default) coord)
    0 coords

/-- A network request issued by the resolver. -/
inductive Request where
  | geocode (q : String)
  | route (origin dest : Coordinates)
deriving DecidableEq, Repr

/-- The environment one `updateRoute` run observes: the geocoding reply
per queried address and the routing reply. -/
structure Env where
  geocode : String → GeocodeReply
  route : RouteReply

/-- Everything one `updateRoute` run does: the network requests in
order, the `setError` calls in order, the `setDirections` calls in
order, and the final layer list of the map. -/
structure ResolverResult where
  requests : List Request
  errorSets : List String
  directionsSets : List (List RouteStep)
  layers : List Layer
deriving DecidableEq, Repr

/-- `updateRoute` from the source: geocode `from`, geocode `dst` (both
always issued, sequentially); if both resolve, remove all marker and
polyline layers, request the route, and on success add the start and end
markers, draw the polyline, compute the cumulative distance, and add the
airport fixture when it exceeds 100 km.  On any failure the remaining
steps are skipped. -/
def updateRoute (dist : (ℚ × ℚ) → (ℚ × ℚ) → ℚ) (env : Env) (frm dst : String)
    (layers₀ : List Layer) : ResolverResult :=
  let fromReply := env.geocode frm
  let toReply := env.geocode dst
  let geocodeErrors := getCoordinatesErrors fromReply ++ getCoordinatesErrors toReply
  match getCoordinates fromReply, getCoordinates toReply with
  | some fromCoords, some toCoords =>
    let cleared := clearRouteLayers layers₀
    match getRoute env.route with
    | none =>
      { requests := [.geocode frm, .geocode dst, .route fromCoords toCoords]
        errorSets := geocodeErrors ++ getRouteErrors env.route
        directionsSets := getRouteDirections env.route
        layers := cleared }
    | some (steps, routeCoordinates) =>
      let withRoute := cleared ++
        [Layer.marker (fromCoords.lat, fromCoords.lng) ("Start: " ++ frm),
         Layer.marker (toCoords.lat, toCoords.lng) ("End: " ++ dst),
         Layer.polyline routeCoordinates]
      let distance := routeDistance dist routeCoordinates
      { requests := [.geocode frm, .geocode dst, .route fromCoords toCoords]
        errorSets := geocodeErrors
        directionsSets := [steps]
        layers := if distance > 100000 then withRoute ++ airportLayers else withRoute }
  | _, _ =>
    { requests := [.geocode frm, .geocode dst]
      errorSets := geocodeErrors
      directionsSets := []
      layers := layers₀ }

/-- The shell's state: the two text fields, the error slot, the
directions list, and the active tab index (0 = Map, 1 = Directions). -/
structure ShellState where
  origin : String
  destination : String
  error : Option String
  directions : List RouteStep
  tabValue : ℕ
deriving DecidableEq, Repr

/-- `handleSubmit` from the source: on `!origin || !destination`
(empty-string falsiness) set the fixed input error and return; otherwise
clear the error.  The second component lists the network requests the
handler itself issues: the body contains none. -/
def handleSubmit (s : ShellState) : ShellState × List Request :=
  if s.origin = "" ∨ s.destination = "" then
    ({ s with error := some inputErrorMsg }, [])
  else
    ({ s with error := none }, [])

/-- Applying a run's `setError` calls in order to a prior error value:
each call overwrites the slot. -/
def applyErrors (e₀ : Option String) (sets : List String) : Option String :=
  sets.foldl (fun _ m => some m) e₀

/-- Applying a run's `setDirections` calls in order to a prior
directions value. -/
def applyDirections (d₀ : List RouteStep) (sets : List (List RouteStep)) : List RouteStep :=
  sets.foldl (fun _ d => d) d₀

/-- One rendered list entry of the directions tab: `ListItemText`'s
primary and secondary texts. -/
structure ListEntry where
  primary : String
  secondary : String
deriving DecidableEq, Repr

/-- What the directions tab shows: the step list, or the placeholder
prompt. -/
inductive DirectionsView where
  | list (entries : List ListEntry)
  | placeholder (text : String)
deriving DecidableEq, Repr

/-- The placeholder prompt of the directions tab. -/
def placeholderText : String :=
  "Enter a destination and click \"Get Directions\" to see turn-by-turn directions"

/-- The directions tab render, from the source: when `directions` is
non-empty, one `ListItem` per step with the instruction as primary text
and `` `${step.distance} meters` `` as secondary text; otherwise the
placeholder. -/
def renderDirections (directions : List RouteStep) : DirectionsView :=
  if directions.length > 0 then
    .list (directions.map (fun step => ⟨step.instruction, toString step.distance ++ " meters"⟩))
  else
    .placeholder placeholderText

/-- The `TabPanel` gate: the directions view is rendered only when the
active tab index is 1. -/
def renderDirectionsTab (s : ShellState) : Option DirectionsView :=
  if s.tabValue = 1 then some (renderDirections s.directions) else none

/-- Spec-side pairwise sum: the sum of `dist` over each pair of
consecutive points, the claimed meaning of the cumulative distance. -/
def chainSum (dist : (ℚ × ℚ) → (ℚ × ℚ) → ℚ) (prev : ℚ × ℚ) : List (ℚ × ℚ) → ℚ
  | [] => 0
  | y :: ys => dist prev y + chainSum dist y ys

/-- Spec-side cumulative distance over a polyline: zero on fewer than
two points, otherwise the consecutive-pair sum. -/
def pairSum (dist : (ℚ × ℚ) → (ℚ × ℚ) → ℚ) : List (ℚ × ℚ) → ℚ
  | [] => 0
  | a :: rest => chainSum dist a rest

/-- Spec-side step instruction, following the claim's words: the
maneuver instruction, falling back to the road name only when the
instruction is absent. -/
def specInstruction (s : StepRaw) : String :=
  (s.maneuver.instruction).getD s.name

/-! ## Concrete fixtures used by witnesses and counterexamples -/

/-- A sample raw geometry: three `[lon, lat]` pairs. -/
def sampleGeom : List (ℚ × ℚ) := [(1, 2), (3, 4), (5, 6)]

/-- A step with a maneuver instruction present. -/
def sampleStepA : StepRaw := ⟨⟨some "Turn left"⟩, "Main St", 2497/10⟩

/-- A step with the maneuver instruction missing. -/
def sampleStepB : StepRaw := ⟨⟨none⟩, "Elm St", 12/10⟩

/-- A step with no maneuver instruction, used as a third step. -/
def sampleStepC : StepRaw := ⟨⟨some "Arrive"⟩, "", 30⟩

/-- A sample leg with three steps. -/
def sampleLeg : Leg := ⟨[sampleStepA, sampleStepB, sampleStepC]⟩

/-- A sample first route. -/
def sampleRoute : RouteEntry := ⟨[sampleLeg], sampleGeom⟩

/-- A sample successful OSRM payload. -/
def sampleOkResponse : RouteResponse := ⟨"Ok", [sampleRoute]⟩

/-- An environment where every call succeeds. -/
def sampleEnvOk : Env := ⟨fun _ => .success [⟨10, 20⟩], .success sampleOkResponse⟩

/-- An environment where geocoding succeeds but the routing payload has
`code ≠ "Ok"`. -/
def sampleEnvBadRoute : Env := ⟨fun _ => .success [⟨10, 20⟩], .success ⟨"NoRoute", []⟩⟩

/-- An environment where every geocoding call returns an empty result
array. -/
def sampleEnvNoGeo : Env := ⟨fun _ => .success [], .success sampleOkResponse⟩

/-- A marker left on the map by an earlier successful resolution. -/
def staleMarker : Layer := .marker (7, 8) "old"

/-- A distance oracle that reports 60 000 m between any two points. -/
def dist60k : (ℚ × ℚ) → (ℚ × ℚ) → ℚ := fun _ _ => 60000

end MapsApp

namespace MapsApp

/-! ## Claims -/

/-- C1: for every shell state, `submit()` with an empty origin or
destination sets the error to the fixed input message and does nothing
else (no network request, directions and the other fields unchanged);
with both fields non-empty it clears the error and still issues no
request, so it never itself triggers resolution. -/
theorem handleSubmit_spec (s : ShellState) :
    ((s.origin = "" ∨ s.destination = "") →
      (handleSubmit s).1 = { s with error := some inputErrorMsg }) ∧
    ((s.origin ≠ "" ∧ s.destination ≠ "") →
      (handleSubmit s).1 = { s with error := none }) ∧
    (handleSubmit s).2 = [] ∧
    (handleSubmit s).1.directions = s.directions ∧
    (handleSubmit s).1.origin = s.origin ∧
    (handleSubmit s).1.destination = s.destination ∧
    (handleSubmit s).1.tabValue = s.tabValue := by
  unfold handleSubmit
  split
  next h =>
    exact ⟨fun _ => rfl, fun hne => absurd h (not_or.mpr ⟨hne.1, hne.2⟩),
      rfl, rfl, rfl, rfl, rfl⟩
  next h =>
    exact ⟨fun hc => absurd hc h, fun _ => rfl, rfl, rfl, rfl, rfl, rfl⟩

/-- Witness for C1 at concrete states: an empty origin sets the input
error; two non-empty fields clear it. -/
theorem handleSubmit_spec_witness :
    (handleSubmit ⟨"", "x", none, [], 0⟩).1 =
      ⟨"", "x", some inputErrorMsg, [], 0⟩ ∧
    (handleSubmit ⟨"a", "b", some inputErrorMsg, [], 0⟩).1 =
      ⟨"a", "b", none, [], 0⟩ :=
  ⟨(handleSubmit_spec ⟨"", "x", none, [], 0⟩).1 (Or.inl rfl),
   (handleSubmit_spec ⟨"a", "b", some inputErrorMsg, [], 0⟩).2.1 (by simp)⟩

/-- C2: for every valid routing response, the coordinate list handed to
the map is the payload's first-route geometry with each `[lon, lat]`
pair swapped to `[lat, lon]`, with the same number of points. -/
theorem getRoute_coordinates_spec (data : RouteResponse) (r : RouteEntry)
    (rs : List RouteEntry) (steps : List RouteStep) (rendered : List (ℚ × ℚ))
    (hroutes : data.routes = r :: rs)
    (h : getRoute (.success data) = some (steps, rendered)) :
    rendered.length = r.geometry.length ∧
    ∀ i : ℕ, rendered[i]? = (r.geometry[i]?).map (fun coord => (coord.2, coord.1)) := by
  simp only [getRoute] at h
  rw [hroutes] at h
  by_cases hcode : data.code = "Ok"
  · simp only [hcode, ne_eq, not_true_eq_false, if_false] at h
    match hlegs : r.legs with
    | [] => rw [hlegs] at h; simp at h
    | leg :: legs =>
      rw [hlegs] at h
      simp only [Option.some.injEq, Prod.mk.injEq] at h
      obtain ⟨-, hrend⟩ := h
      subst hrend
      constructor
      · simp
      · intro i
        simp [List.getElem?_map]
  · simp [hcode] at h

/-- Witness for C2 on the sample payload: three geometry points yield
three rendered points, the second being the swap of the second pair. -/
theorem getRoute_coordinates_spec_witness :
    ([((2:ℚ), (1:ℚ)), (4, 3), (6, 5)] : List (ℚ × ℚ)).length =
      sampleRoute.geometry.length ∧
    ([((2:ℚ), (1:ℚ)), (4, 3), (6, 5)] : List (ℚ × ℚ))[1]? =
      (sampleRoute.geometry[1]?).map (fun coord => (coord.2, coord.1)) := by
  have happ := getRoute_coordinates_spec sampleOkResponse sampleRoute []
    (sampleLeg.steps.map parseStep) [((2:ℚ), (1:ℚ)), (4, 3), (6, 5)] rfl
    (by simp [getRoute, sampleOkResponse, sampleRoute, sampleGeom, sampleLeg])
  exact ⟨happ.1, happ.2 1⟩

/-- C7: with the Directions tab active, a non-empty step list renders
exactly one entry per step, each entry showing the step's instruction as
primary text and its distance followed by `" meters"` as secondary text;
an empty step list renders the placeholder prompt. -/
theorem renderDirections_spec (s : ShellState) (htab : s.tabValue = 1) :
    (s.directions ≠ [] →
      renderDirectionsTab s = some (.list (s.directions.map
        (fun step => ⟨step.instruction, toString step.distance ++ " meters"⟩))) ∧
      (s.directions.map (fun step =>
        (⟨step.instruction, toString step.distance ++ " meters"⟩ : ListEntry))).length =
        s.directions.length ∧
      ∀ i : ℕ, (s.directions.map (fun step =>
          (⟨step.instruction, toString step.distance ++ " meters"⟩ : ListEntry)))[i]? =
        (s.directions[i]?).map (fun step =>
          ⟨step.instruction, toString step.distance ++ " meters"⟩)) ∧
    (s.directions = [] →
      renderDirectionsTab s = some (.placeholder placeholderText)) := by
  refine ⟨fun hne => ?_, fun hemp => ?_⟩
  · have hlen : s.directions.length > 0 := List.length_pos.mpr hne
    refine ⟨?_, by simp, fun i => by simp [List.getElem?_map]⟩
    simp [renderDirectionsTab, htab, renderDirections, hlen]
  · simp [renderDirectionsTab, htab, renderDirections, hemp]

/-- Witness for C7: a three-step directions list renders three entries
(the spec's end-to-end example), and the empty list renders the
placeholder. -/
theorem renderDirections_spec_witness :
    renderDirectionsTab ⟨"a", "b", none, [⟨"Turn left", 250⟩, ⟨"Elm St", 1⟩, ⟨"Arrive", 30⟩], 1⟩ =
      some (.list [⟨"Turn left", "250 meters"⟩, ⟨"Elm St", "1 meters"⟩, ⟨"Arrive", "30 meters"⟩]) ∧
    renderDirectionsTab ⟨"a", "b", none, [], 1⟩ = some (.placeholder placeholderText) := by
  constructor
  · have happ := (renderDirections_spec
      ⟨"a", "b", none, [⟨"Turn left", 250⟩, ⟨"Elm St", 1⟩, ⟨"Arrive", 30⟩], 1⟩ rfl).1
      (by simp)
    simpa using happ.1
  · exact (renderDirections_spec ⟨"a", "b", none, [], 1⟩ rfl).2 rfl

end MapsApp

namespace MapsApp

/-- Helper: folding the indexed distance callback over the part of the
polyline past the first point accumulates the consecutive-pair sum. -/
theorem routeDistance_fold_aux (dist : (ℚ × ℚ) → (ℚ × ℚ) → ℚ) (coords : List (ℚ × ℚ))
    (ys : List (ℚ × ℚ)) :
    ∀ (j : ℕ) (t : ℚ) (prev : ℚ × ℚ),
      1 ≤ j → coords.drop j = ys → coords.getD (j - 1) default = prev →
      (ys.foldl (fun acc a =>
          (if acc.2 = 0 then (0:ℚ)
            else acc.1 + dist (coords.getD (acc.2 - 1) default) a, acc.2 + 1))
        (t, j)).1 = t + chainSum dist prev ys := by
  induction ys with
  | nil => intro j t prev _ _ _; simp [chainSum]
  | cons y ys ih =>
    intro j t prev hj hdrop hprev
    have hj0 : j ≠ 0 := by omega
    have hgetj : coords[j]? = some y := by
      have h := List.getElem?_drop coords j 0
      rw [hdrop] at h
      simpa using h.symm
    have hdrop' : coords.drop (j + 1) = ys := by
      rw [← List.drop_drop 1 j coords, hdrop]
      rfl
    have hgetD : coords.getD (j + 1 - 1) default = y := by
      simp [List.getD_eq_getElem?_getD, hgetj]
    rw [List.foldl_cons]
    have hstep : (if (t, j).2 = 0 then (0:ℚ)
          else (t, j).1 + dist (coords.getD ((t, j).2 - 1) default) y, (t, j).2 + 1)
        = (t + dist prev y, j + 1) := by
      show (if j = 0 then (0:ℚ) else t + dist (coords.getD (j - 1) default) y, j + 1) = _
      rw [if_neg hj0, hprev]
    rw [hstep, ih (j + 1) (t + dist prev y) y (by omega) hdrop' hgetD]
    show t + dist prev y + chainSum dist y ys = t + (dist prev y + chainSum dist y ys)
    ring

/-- The cumulative distance `updateRoute` computes equals the sum of the
abstract great-circle distance over each pair of consecutive polyline
points. -/
theorem routeDistance_eq_pairSum (dist : (ℚ × ℚ) → (ℚ × ℚ) → ℚ)
    (coords : List (ℚ × ℚ)) :
    routeDistance dist coords = pairSum dist coords := by
  cases coords with
  | nil => rfl
  | cons c rest =>
    show (rest.foldl (fun acc a =>
        (if acc.2 = 0 then (0:ℚ)
          else acc.1 + dist ((c :: rest).getD (acc.2 - 1) default) a, acc.2 + 1))
      ((0:ℚ), 1)).1 = pairSum dist (c :: rest)
    rw [routeDistance_fold_aux dist (c :: rest) rest 1 0 c (le_refl 1) rfl rfl]
    exact zero_add _

/-- C3: for every successfully resolved route, the cumulative distance
is the consecutive-pair sum of the great-circle distances over the
polyline; above 100 000 m exactly the two fixed airport markers (DFW
and DAL, a constant independent of the query) are appended, and at or
below the threshold none is. -/
theorem updateRoute_airport_spec (dist : (ℚ × ℚ) → (ℚ × ℚ) → ℚ) (env : Env)
    (frm dst : String) (layers₀ : List Layer) (fc tc : Coordinates)
    (steps : List RouteStep) (rc : List (ℚ × ℚ))
    (hf : getCoordinates (env.geocode frm) = some fc)
    (ht : getCoordinates (env.geocode dst) = some tc)
    (hr : getRoute env.route = some (steps, rc)) :
    routeDistance dist rc = pairSum dist rc ∧
    (updateRoute dist env frm dst layers₀).layers =
      (clearRouteLayers layers₀ ++
        [Layer.marker (fc.lat, fc.lng) ("Start: " ++ frm),
         Layer.marker (tc.lat, tc.lng) ("End: " ++ dst),
         Layer.polyline rc]) ++
      (if pairSum dist rc > 100000 then airportLayers else []) ∧
    airportLayers =
      [Layer.marker (32.8998, -97.0403) "DFW Airport",
       Layer.marker (32.8481, -96.8512) "DAL Airport"] := by
  refine ⟨routeDistance_eq_pairSum dist rc, ?_, rfl⟩
  simp only [updateRoute, hf, ht, hr]
  rw [routeDistance_eq_pairSum]
  by_cases hgt : pairSum dist rc > 100000
  · simp [hgt]
  · simp [hgt]

/-- Witness for C3: on the sample route with a 60 000 m distance oracle
the cumulative distance is 120 000 m and the two airport markers are
appended after the start marker, end marker and polyline. -/
theorem updateRoute_airport_spec_witness :
    routeDistance dist60k [((2:ℚ), 1), (4, 3), (6, 5)] =
      pairSum dist60k [((2:ℚ), 1), (4, 3), (6, 5)] ∧
    (updateRoute dist60k sampleEnvOk "a" "b" [Layer.tile]).layers =
      (clearRouteLayers [Layer.tile] ++
        [Layer.marker (10, 20) ("Start: " ++ "a"),
         Layer.marker (10, 20) ("End: " ++ "b"),
         Layer.polyline [((2:ℚ), 1), (4, 3), (6, 5)]]) ++
      (if pairSum dist60k [((2:ℚ), 1), (4, 3), (6, 5)] > 100000
        then airportLayers else []) ∧
    airportLayers =
      [Layer.marker (32.8998, -97.0403) "DFW Airport",
       Layer.marker (32.8481, -96.8512) "DAL Airport"] :=
  updateRoute_airport_spec dist60k sampleEnvOk "a" "b" [Layer.tile] ⟨10, 20⟩ ⟨10, 20⟩
    (sampleLeg.steps.map parseStep) [((2:ℚ), 1), (4, 3), (6, 5)] rfl rfl rfl

end MapsApp

namespace MapsApp

/-- C4: `getCoordinates` returns the first result's lat/lon on a
non-empty result array; on an empty array or a transport error it
returns `null` (no exception escapes), and in that case `updateRoute`
sets the lookup error, leaves the map layers untouched, writes no
directions, and issues no route request. -/
theorem getCoordinates_spec (dist : (ℚ × ℚ) → (ℚ × ℚ) → ℚ) (env : Env)
    (frm dst : String) (layers₀ : List Layer) :
    (∀ (r : GeocodeResult) (rs : List GeocodeResult),
      getCoordinates (.success (r :: rs)) = some ⟨r.lat, r.lon⟩) ∧
    getCoordinates (.success []) = none ∧
    getCoordinates .transportError = none ∧
    ((getCoordinates (env.geocode frm) = none ∨ getCoordinates (env.geocode dst) = none) →
      lookupErrorMsg ∈ (updateRoute dist env frm dst layers₀).errorSets ∧
      (updateRoute dist env frm dst layers₀).layers = layers₀ ∧
      (updateRoute dist env frm dst layers₀).directionsSets = [] ∧
      (updateRoute dist env frm dst layers₀).requests = [.geocode frm, .geocode dst]) := by
  refine ⟨fun r rs => rfl, rfl, rfl, fun hfail => ?_⟩
  rcases hfail with hnone | hnone
  · rcases ht : getCoordinates (env.geocode dst) with _ | tc <;>
      simp [updateRoute, hnone, ht, getCoordinatesErrors]
  · rcases hf : getCoordinates (env.geocode frm) with _ | fc <;>
      simp [updateRoute, hf, hnone, getCoordinatesErrors]

/-- Witness for C4: with an empty geocoding result array the resolver
reports the lookup error, the stale marker set is untouched, no
directions are written and no route request is issued; a non-empty
result array yields its first entry. -/
theorem getCoordinates_spec_witness :
    getCoordinates (.success [⟨(33:ℚ), (-97:ℚ)⟩]) = some ⟨33, -97⟩ ∧
    lookupErrorMsg ∈ (updateRoute dist60k sampleEnvNoGeo "a" "b" [staleMarker]).errorSets ∧
    (updateRoute dist60k sampleEnvNoGeo "a" "b" [staleMarker]).layers = [staleMarker] ∧
    (updateRoute dist60k sampleEnvNoGeo "a" "b" [staleMarker]).directionsSets = [] ∧
    (updateRoute dist60k sampleEnvNoGeo "a" "b" [staleMarker]).requests =
      [.geocode "a", .geocode "b"] := by
  have happ := getCoordinates_spec dist60k sampleEnvNoGeo "a" "b" [staleMarker]
  have hc := happ.2.2.2 (Or.inl rfl)
  exact ⟨happ.1 ⟨33, -97⟩ [], hc.1, hc.2.1, hc.2.2.1, hc.2.2.2⟩

/-- C5 counterexample: geocoding succeeds, the routing payload has
`code = "NoRoute"`; the route error is reported, but the prior route
marker is no longer on the map — the claim that prior route layers are
left in place is false, because `updateRoute` removes every marker and
polyline before requesting the route. -/
theorem updateRoute_routeError_cex :
    routeErrorMsg ∈
      (updateRoute dist60k sampleEnvBadRoute "a" "b" [Layer.tile, staleMarker]).errorSets ∧
    staleMarker ∈ ([Layer.tile, staleMarker] : List Layer) ∧
    staleMarker ∉
      (updateRoute dist60k sampleEnvBadRoute "a" "b" [Layer.tile, staleMarker]).layers := by
  have hres : updateRoute dist60k sampleEnvBadRoute "a" "b" [Layer.tile, staleMarker] =
      { requests := [.geocode "a", .geocode "b", .route ⟨10, 20⟩ ⟨10, 20⟩]
        errorSets := [routeErrorMsg]
        directionsSets := []
        layers := [Layer.tile] } := rfl
  rw [hres]
  refine ⟨by simp, by simp, by simp [staleMarker]⟩

/-- C5 amended: for every routing payload whose code is not `"Ok"`
(reachable only after both geocodes resolved), the resolver reports the
route error and adds no layer, but the prior route layers have already
been removed: only non-route layers survive the pre-route sweep. -/
theorem updateRoute_routeError_spec (dist : (ℚ × ℚ) → (ℚ × ℚ) → ℚ) (env : Env)
    (frm dst : String) (layers₀ : List Layer) (fc tc : Coordinates)
    (data : RouteResponse)
    (hf : getCoordinates (env.geocode frm) = some fc)
    (ht : getCoordinates (env.geocode dst) = some tc)
    (henv : env.route = .success data)
    (hcode : data.code ≠ "Ok") :
    (updateRoute dist env frm dst layers₀).errorSets = [routeErrorMsg] ∧
    (updateRoute dist env frm dst layers₀).layers = clearRouteLayers layers₀ ∧
    (updateRoute dist env frm dst layers₀).directionsSets = [] := by
  have hr : getRoute env.route = none := by
    rw [henv]
    simp [getRoute, hcode]
  simp [updateRoute, hf, ht, hr, getCoordinatesErrors, getRouteErrors, getRouteDirections]

/-- Witness for the amended C5 on the concrete bad-route environment. -/
theorem updateRoute_routeError_spec_witness :
    (updateRoute dist60k sampleEnvBadRoute "a" "b" [Layer.tile, staleMarker]).errorSets =
      [routeErrorMsg] ∧
    (updateRoute dist60k sampleEnvBadRoute "a" "b" [Layer.tile, staleMarker]).layers =
      clearRouteLayers [Layer.tile, staleMarker] ∧
    (updateRoute dist60k sampleEnvBadRoute "a" "b" [Layer.tile, staleMarker]).directionsSets =
      [] :=
  updateRoute_routeError_spec dist60k sampleEnvBadRoute "a" "b" [Layer.tile, staleMarker]
    ⟨10, 20⟩ ⟨10, 20⟩ ⟨"NoRoute", []⟩ rfl rfl rfl (by decide)

/-- A step whose maneuver instruction is present but empty. -/
def emptyInstrStep : StepRaw := ⟨⟨some ""⟩, "Main St", 5⟩

/-- A successful payload containing the empty-instruction step. -/
def emptyInstrResponse : RouteResponse := ⟨"Ok", [⟨[⟨[emptyInstrStep]⟩], [(1, 2)]⟩]⟩

/-- C6 counterexample: a maneuver instruction that is present but empty
is not absent, so the claim maps the step to the instruction `""`; the
code's `||` falls back to the road name `"Main St"` instead. -/
theorem getRoute_instruction_cex :
    getRoute (.success emptyInstrResponse) = some ([⟨"Main St", 5⟩], [((2:ℚ), 1)]) ∧
    emptyInstrStep.maneuver.instruction = some "" ∧
    specInstruction emptyInstrStep = "" ∧
    ("Main St" : String) ≠ "" := by
  refine ⟨?_, rfl, rfl, by decide⟩
  show some ([parseStep emptyInstrStep], [((2:ℚ), 1)]) = _
  have hstep : parseStep emptyInstrStep = ⟨"Main St", 5⟩ := by
    unfold parseStep emptyInstrStep jsOrString
    norm_num [round_eq]
  rw [hstep]

/-- C6 amended: for every successful routing response the directions
come from the first route's first leg, one entry per step; the entry's
instruction is the maneuver instruction when present and non-empty and
the road name otherwise (absent or empty), and the entry's distance is
the step distance rounded to the nearest integer (`⌊d + 1/2⌋`). -/
theorem getRoute_steps_spec (data : RouteResponse) (r : RouteEntry) (rs : List RouteEntry)
    (leg : Leg) (legs : List Leg) (steps : List RouteStep) (rendered : List (ℚ × ℚ))
    (hroutes : data.routes = r :: rs) (hlegs : r.legs = leg :: legs)
    (h : getRoute (.success data) = some (steps, rendered)) :
    steps.length = leg.steps.length ∧
    ∀ i : ℕ, steps[i]? = (leg.steps[i]?).map (fun (s : StepRaw) =>
      ({ instruction :=
          match s.maneuver.instruction with
          | some instr => if instr = "" then s.name else instr
          | none => s.name
         distance := ⌊s.distance + 1/2⌋ } : RouteStep)) := by
  simp only [getRoute] at h
  rw [hroutes] at h
  by_cases hcode : data.code = "Ok"
  · simp only [hcode, ne_eq, not_true_eq_false, if_false] at h
    rw [hlegs] at h
    simp only [Option.some.injEq, Prod.mk.injEq] at h
    obtain ⟨hsteps, -⟩ := h
    subst hsteps
    refine ⟨by simp, fun i => ?_⟩
    cases hx : leg.steps[i]? with
    | none => simp [List.getElem?_map, hx]
    | some s =>
      simp only [List.getElem?_map, hx, Option.map_some]
      rcases hsi : s.maneuver.instruction with _ | instr <;>
        simp [parseStep, jsOrString, hsi, round_eq]
  · simp [hcode] at h

/-- Witness for the amended C6 on the sample payload: three steps map to
three entries, the second built from the missing-instruction step. -/
theorem getRoute_steps_spec_witness :
    (sampleLeg.steps.map parseStep).length = sampleLeg.steps.length ∧
    (sampleLeg.steps.map parseStep)[1]? = (sampleLeg.steps[1]?).map (fun (s : StepRaw) =>
      ({ instruction :=
          match s.maneuver.instruction with
          | some instr => if instr = "" then s.name else instr
          | none => s.name
         distance := ⌊s.distance + 1/2⌋ } : RouteStep)) := by
  have happ := getRoute_steps_spec sampleOkResponse sampleRoute [] sampleLeg []
    (sampleLeg.steps.map parseStep) [((2:ℚ), 1), (4, 3), (6, 5)] rfl rfl rfl
  exact ⟨happ.1, happ.2 1⟩

end MapsApp

namespace MapsApp

/-- C8: the destination geocode request is issued even when the origin
geocode has failed (the two calls are sequential and unconditional);
when both fail, two lookup failure messages are set in order, so the
surfaced error is the one written by the most recent failing call — the
destination's. -/
theorem updateRoute_geocode_order_spec (dist : (ℚ × ℚ) → (ℚ × ℚ) → ℚ) (env : Env)
    (frm dst : String) (layers₀ : List Layer) (e₀ : Option String)
    (hf : getCoordinates (env.geocode frm) = none) :
    Request.geocode dst ∈ (updateRoute dist env frm dst layers₀).requests ∧
    (getCoordinates (env.geocode dst) = none →
      (updateRoute dist env frm dst layers₀).errorSets = [lookupErrorMsg, lookupErrorMsg] ∧
      applyErrors e₀ (updateRoute dist env frm dst layers₀).errorSets = some lookupErrorMsg) := by
  constructor
  · rcases ht : getCoordinates (env.geocode dst) with _ | tc <;>
      simp [updateRoute, hf, ht]
  · intro ht
    simp [updateRoute, hf, ht, getCoordinatesErrors, applyErrors]

/-- Witness for C8: with both geocodes failing, the destination request
is in the trace and the two identical messages leave the destination's
as the surfaced error. -/
theorem updateRoute_geocode_order_spec_witness :
    Request.geocode "b" ∈ (updateRoute dist60k sampleEnvNoGeo "a" "b" []).requests ∧
    (updateRoute dist60k sampleEnvNoGeo "a" "b" []).errorSets =
      [lookupErrorMsg, lookupErrorMsg] ∧
    applyErrors (some inputErrorMsg) (updateRoute dist60k sampleEnvNoGeo "a" "b" []).errorSets =
      some lookupErrorMsg := by
  have happ := updateRoute_geocode_order_spec dist60k sampleEnvNoGeo "a" "b" []
    (some inputErrorMsg) rfl
  exact ⟨happ.1, (happ.2 rfl).1, (happ.2 rfl).2⟩

/-- Helper: a fully successful resolution performs no `setError` call. -/
theorem updateRoute_success_errorSets (dist : (ℚ × ℚ) → (ℚ × ℚ) → ℚ) (env : Env)
    (frm dst : String) (layers₀ : List Layer)
    (hf : getCoordinates (env.geocode frm) ≠ none)
    (ht : getCoordinates (env.geocode dst) ≠ none)
    (hr : getRoute env.route ≠ none) :
    (updateRoute dist env frm dst layers₀).errorSets = [] := by
  rcases hf' : getCoordinates (env.geocode frm) with _ | fc
  · exact absurd hf' hf
  rcases ht' : getCoordinates (env.geocode dst) with _ | tc
  · exact absurd ht' ht
  rcases hr' : getRoute env.route with _ | ⟨steps, rc⟩
  · exact absurd hr' hr
  simp [updateRoute, hf', ht', hr', getCoordinatesErrors]

/-- C9: the resolver sets the error only on failure and never clears it:
one successful resolution performs no `setError` call and leaves any
prior error value intact, any number of successful resolutions do too,
and the error becomes `none` exactly through `submit()` with both fields
non-empty. -/
theorem error_persistence_spec (dist : (ℚ × ℚ) → (ℚ × ℚ) → ℚ) (frm dst : String)
    (layers₀ : List Layer) (e₀ : Option String) :
    (∀ env : Env,
      getCoordinates (env.geocode frm) ≠ none →
      getCoordinates (env.geocode dst) ≠ none →
      getRoute env.route ≠ none →
      (updateRoute dist env frm dst layers₀).errorSets = [] ∧
      applyErrors e₀ (updateRoute dist env frm dst layers₀).errorSets = e₀) ∧
    (∀ envs : List Env,
      (∀ env ∈ envs, getCoordinates (env.geocode frm) ≠ none ∧
        getCoordinates (env.geocode dst) ≠ none ∧ getRoute env.route ≠ none) →
      envs.foldl
        (fun e env => applyErrors e (updateRoute dist env frm dst layers₀).errorSets) e₀ =
        e₀) ∧
    (∀ s : ShellState,
      (handleSubmit s).1.error = none ↔ (s.origin ≠ "" ∧ s.destination ≠ "")) := by
  have hone : ∀ env : Env,
      getCoordinates (env.geocode frm) ≠ none →
      getCoordinates (env.geocode dst) ≠ none →
      getRoute env.route ≠ none →
      (updateRoute dist env frm dst layers₀).errorSets = [] ∧
      applyErrors e₀ (updateRoute dist env frm dst layers₀).errorSets = e₀ := by
    intro env hf ht hr
    have hz := updateRoute_success_errorSets dist env frm dst layers₀ hf ht hr
    exact ⟨hz, by rw [hz]; rfl⟩
  refine ⟨hone, ?_, ?_⟩
  · have key : ∀ (envs : List Env) (e : Option String),
        (∀ env ∈ envs, getCoordinates (env.geocode frm) ≠ none ∧
          getCoordinates (env.geocode dst) ≠ none ∧ getRoute env.route ≠ none) →
        envs.foldl
          (fun e env => applyErrors e (updateRoute dist env frm dst layers₀).errorSets) e =
          e := by
      intro envs
      induction envs with
      | nil => intro e _; rfl
      | cons env envs ih =>
        intro e hall
        have h1 := hall env (List.mem_cons_self env envs)
        rw [List.foldl_cons,
          show applyErrors e (updateRoute dist env frm dst layers₀).errorSets = e from by
            rw [updateRoute_success_errorSets dist env frm dst layers₀ h1.1 h1.2.1 h1.2.2]
            rfl]
        exact ih e (fun x hx => hall x (List.mem_cons_of_mem _ hx))
    exact fun envs hs => key envs e₀ hs
  · intro s
    unfold handleSubmit
    split
    next h =>
      constructor
      · intro hc; simp at hc
      · intro hne; exact absurd h (not_or.mpr ⟨hne.1, hne.2⟩)
    next h =>
      push_neg at h
      exact iff_of_true rfl ⟨h.1, h.2⟩

/-- Witness for C9: a lookup error set by a failed attempt survives one
and two successful resolutions, and submitting with both fields filled
is what clears it. -/
theorem error_persistence_spec_witness :
    ((updateRoute dist60k sampleEnvOk "a" "b" []).errorSets = [] ∧
      applyErrors (some lookupErrorMsg)
        (updateRoute dist60k sampleEnvOk "a" "b" []).errorSets = some lookupErrorMsg) ∧
    [sampleEnvOk, sampleEnvOk].foldl
      (fun e env => applyErrors e (updateRoute dist60k env "a" "b" []).errorSets)
      (some lookupErrorMsg) = some lookupErrorMsg ∧
    ((handleSubmit ⟨"a", "b", some lookupErrorMsg, [], 0⟩).1.error = none ↔
      (("a" : String) ≠ "" ∧ ("b" : String) ≠ "")) := by
  have happ := error_persistence_spec dist60k "a" "b" [] (some lookupErrorMsg)
  have hne1 : getCoordinates (sampleEnvOk.geocode "a") ≠ none := by
    rw [show getCoordinates (sampleEnvOk.geocode "a") = some ⟨10, 20⟩ from rfl]
    simp
  have hne2 : getCoordinates (sampleEnvOk.geocode "b") ≠ none := by
    rw [show getCoordinates (sampleEnvOk.geocode "b") = some ⟨10, 20⟩ from rfl]
    simp
  have hne3 : getRoute sampleEnvOk.route ≠ none := by
    rw [show getRoute sampleEnvOk.route =
      some (sampleLeg.steps.map parseStep, [((2:ℚ), 1), (4, 3), (6, 5)]) from rfl]
    simp
  refine ⟨happ.1 sampleEnvOk hne1 hne2 hne3, happ.2.1 [sampleEnvOk, sampleEnvOk] ?_,
    happ.2.2 ⟨"a", "b", some lookupErrorMsg, [], 0⟩⟩
  intro env henv
  simp only [List.mem_cons, List.not_mem_nil, or_false] at henv
  rcases henv with rfl | rfl <;> exact ⟨hne1, hne2, hne3⟩

/-- C10: a failing resolution attempt — a failed geocode or a failed
route request — performs no `setDirections` call, so the previously
displayed directions are kept unchanged. -/
theorem updateRoute_failure_directions_spec (dist : (ℚ × ℚ) → (ℚ × ℚ) → ℚ) (env : Env)
    (frm dst : String) (layers₀ : List Layer) (d₀ : List RouteStep)
    (h : getCoordinates (env.geocode frm) = none ∨ getCoordinates (env.geocode dst) = none ∨
      getRoute env.route = none) :
    (updateRoute dist env frm dst layers₀).directionsSets = [] ∧
    applyDirections d₀ (updateRoute dist env frm dst layers₀).directionsSets = d₀ := by
  have hd : (updateRoute dist env frm dst layers₀).directionsSets = [] := by
    rcases hf : getCoordinates (env.geocode frm) with _ | fc
    · rcases ht : getCoordinates (env.geocode dst) with _ | tc <;>
        simp [updateRoute, hf, ht]
    · rcases ht : getCoordinates (env.geocode dst) with _ | tc
      · simp [updateRoute, hf, ht]
      · rcases h with h | h | h
        · rw [hf] at h; simp at h
        · rw [ht] at h; simp at h
        · simp [updateRoute, hf, ht, h, getRouteDirections]
  exact ⟨hd, by rw [hd]; rfl⟩

/-- Witness for C10: after a failed route request the stale directions
of an earlier success remain. -/
theorem updateRoute_failure_directions_spec_witness :
    (updateRoute dist60k sampleEnvBadRoute "a" "b" []).directionsSets = [] ∧
    applyDirections [⟨"Turn left", 250⟩]
      (updateRoute dist60k sampleEnvBadRoute "a" "b" []).directionsSets =
      [⟨"Turn left", 250⟩] :=
  updateRoute_failure_directions_spec dist60k sampleEnvBadRoute "a" "b" []
    [⟨"Turn left", 250⟩] (Or.inr (Or.inr rfl))

end MapsApp
